import Mathlib

/-!
Verification of the Momentum Report engine (momentum_report.py / app.py).

The two Python files share the same core logic verbatim: the keyword lists
ACTIVE_KEYS / PENDING_KEYS / SOLD_KEYS, the functions to_num and
bucket_status, the sold-window filter, and the metrics aggregation inside
main / build_docx.  We embed that shared core once.

Modelling conventions:
- A CSV cell read with dtype=str is either a string or NaN; we model it as
  Option String (none is NaN / a missing cell).
- Python float NaN used as the Missing sentinel for numbers becomes
  Option Rat (none is NaN).
- Dates are modelled as integers counting days (pd.to_datetime values and
  the window cutoff only ever get compared with ≥, and the window arithmetic
  subtracts whole days); pd.to_datetime with errors="coerce" is an abstract
  parameter parseDate : Option String → Option Int (none is NaT).
- Python float(s) on the stripped string is modelled by parseFloat below,
  an exact rational reading of decimal literals with optional sign, point
  and exponent; forms like "inf"/"nan"/underscore separators are outside
  the modelled grammar (none of them occur in the properties checked here,
  and float("nan") would be NaN, i.e. Missing, anyway).
- Strings are handled through their character lists; str.strip and
  str.lower become trimChars and Char.toLower over ASCII data.
-/

namespace Momentum

/-- The five status buckets produced by bucket_status. -/
inductive Bucket where
  | Active
  | Pending
  | Sold
  | Other
  | Unknown
deriving DecidableEq, Repr

/-- Characters of a string (the classifier and parser work on char lists). -/
def chars (s : String) : List Char :=
  s.data

/-- Python str.strip on a char list: drop whitespace from both ends. -/
def trimChars (cs : List Char) : List Char :=
  ((cs.dropWhile Char.isWhitespace).reverse.dropWhile Char.isWhitespace).reverse

/-- Python substring test (pat in s), as a Boolean. -/
def containsSub (pat s : List Char) : Bool :=
  decide (pat <:+: s)

/-- ACTIVE_KEYS = ["active", "coming soon", "back on market", "a/"]. -/
def ACTIVE_KEYS : List (List Char) :=
  [chars "active", chars "coming soon", chars "back on market", chars "a/"]

/-- PENDING_KEYS = ["pending", "under contract", "a/i", "accepting backup"]. -/
def PENDING_KEYS : List (List Char) :=
  [chars "pending", chars "under contract", chars "a/i", chars "accepting backup"]

/-- SOLD_KEYS = ["closed", "sold"]. -/
def SOLD_KEYS : List (List Char) :=
  [chars "closed", chars "sold"]

/-- Python any(k in s for k in keys). -/
def anyKey (keys : List (List Char)) (s : List Char) : Bool :=
  keys.any (fun k => containsSub k s)

/-- Body of bucket_status after s = str(s).strip().lower(): the four ordered
keyword rules and the final "Other" fallback of the source. -/
def bucketCore (s : List Char) : Bucket :=
  if anyKey ACTIVE_KEYS s && !(anyKey [chars "under contract", chars "pending"] s) then
    Bucket.Active
  else if anyKey PENDING_KEYS s then
    Bucket.Pending
  else if anyKey SOLD_KEYS s then
    Bucket.Sold
  else if s = chars "active" then
    Bucket.Active
  else
    Bucket.Other

/-- Python str.strip().lower() applied to the raw status text. -/
def normStatus (s : String) : List Char :=
  trimChars ((chars s).map Char.toLower)

/-- bucket_status: NaN input (pd.isna) gives "Unknown", otherwise the
stripped lower-cased text goes through the keyword rules. -/
def bucket_status (x : Option String) : Bucket :=
  match x with
  | none => Bucket.Unknown
  | some s => bucketCore (normStatus s)

/-- Numeric value of a digit string, most significant first. -/
def digitsVal (ds : List Char) : Nat :=
  ds.foldl (fun a c => a * 10 + (c.toNat - 48)) 0

/-- Mantissa of a Python float literal: digits, an optional point, and
optional fraction digits; at least one digit overall.  Returns the value
and the unconsumed rest. -/
def parseMantissa (cs : List Char) : Option (Rat × List Char) :=
  let ip := cs.takeWhile Char.isDigit
  let rest := cs.dropWhile Char.isDigit
  match rest with
  | '.' :: rest2 =>
    let fp := rest2.takeWhile Char.isDigit
    let rest3 := rest2.dropWhile Char.isDigit
    if ip.isEmpty && fp.isEmpty then none
    else some ((digitsVal ip : Rat) + (digitsVal fp : Rat) / (10 : Rat) ^ fp.length, rest3)
  | _ => if ip.isEmpty then none else some ((digitsVal ip : Rat), rest)

/-- Signed digit run forming a float exponent; must consume everything. -/
def parseExponent (cs : List Char) : Option Int :=
  let (sgn, cs2) : Int × List Char :=
    match cs with
    | '+' :: r => (1, r)
    | '-' :: r => (-1, r)
    | _ => (1, cs)
  if cs2.isEmpty then none
  else if cs2.all Char.isDigit then some (sgn * (digitsVal cs2 : Int)) else none

/-- Python float(s) on an already stripped string, over exact rationals:
optional sign, mantissa, optional e/E exponent; anything else fails. -/
def parseFloat (cs : List Char) : Option Rat :=
  let (sgn, cs1) : Rat × List Char :=
    match cs with
    | '+' :: r => (1, r)
    | '-' :: r => (-1, r)
    | _ => (1, cs)
  match parseMantissa cs1 with
  | none => none
  | some (m, rest) =>
    match rest with
    | [] => some (sgn * m)
    | 'e' :: r => (parseExponent r).map (fun e => sgn * m * (10 : Rat) ^ e)
    | 'E' :: r => (parseExponent r).map (fun e => sgn * m * (10 : Rat) ^ e)
    | _ => none

/-- to_num: NaN stays NaN; otherwise drop every "$" and "," (single-character
replace with the empty string), strip whitespace, and try float(); a parse
failure is swallowed into NaN. -/
def to_num (x : Option String) : Option Rat :=
  match x with
  | none => none
  | some x =>
    parseFloat (trimChars (((chars x).filter (fun c => c ≠ '$')).filter (fun c => c ≠ ',')))

/-- One CSV row after pd.read_csv with dtype=str: each cell is a string or
NaN.  Only the columns the metrics use are kept; the "Seller Concessions"
cell is read only when the column exists (hasConcessions below). -/
structure Row where
  mlsStatus : Option String
  closeDate : Option String
  listPrice : Option String
  closePrice : Option String
  sellerConcessions : Option String

/-- One row after the Prep block of main / build_docx: the derived columns
named _bucket, _close_date, _list_price, _close_price, _concessions. -/
structure Classified where
  bucket : Bucket
  closeDateParsed : Option Int
  listPriceNum : Option Rat
  closePriceNum : Option Rat
  concessionsNum : Option Rat

/-- The Prep block for one row.  parseDate abstracts
pd.to_datetime(..., errors="coerce"); hasConcessions is the
"Seller Concessions" in df.columns test, and when it is false the
_concessions column is the scalar 0.0 for every row. -/
def classifyRow (parseDate : Option String → Option Int) (hasConcessions : Bool)
    (r : Row) : Classified :=
  { bucket := bucket_status r.mlsStatus
    closeDateParsed := parseDate r.closeDate
    listPriceNum := to_num r.listPrice
    closePriceNum := to_num r.closePrice
    concessionsNum := if hasConcessions then to_num r.sellerConcessions else some 0 }

/-- The Prep block over the whole dataframe. -/
def classifyAll (parseDate : Option String → Option Int) (hasConcessions : Bool)
    (rows : List Row) : List Classified :=
  rows.map (classifyRow parseDate hasConcessions)

/-- is_sold_window for one row: bucket equals "Sold" and the parsed close
date compares ≥ window_start = today - timedelta(days=days).  A NaT close
date compares False in pandas, hence the none branch. -/
def inSoldWindow (referenceNow windowDays : Int) (c : Classified) : Bool :=
  decide (c.bucket = Bucket.Sold) &&
    (match c.closeDateParsed with
     | none => false
     | some d => decide (referenceNow - windowDays ≤ d))

/-- active_count = (_bucket == "Active").sum(). -/
def activeCount (parseDate : Option String → Option Int) (hasConcessions : Bool)
    (rows : List Row) : Nat :=
  (classifyAll parseDate hasConcessions rows).countP (fun c => decide (c.bucket = Bucket.Active))

/-- pending_count = (_bucket == "Pending").sum(). -/
def pendingCount (parseDate : Option String → Option Int) (hasConcessions : Bool)
    (rows : List Row) : Nat :=
  (classifyAll parseDate hasConcessions rows).countP (fun c => decide (c.bucket = Bucket.Pending))

/-- sold_window_count = is_sold_window.sum(). -/
def soldWindowCount (parseDate : Option String → Option Int) (hasConcessions : Bool)
    (rows : List Row) (referenceNow windowDays : Int) : Nat :=
  (classifyAll parseDate hasConcessions rows).countP (inSoldWindow referenceNow windowDays)

/-- den = (sold_window_count / 3.0) + pending_count. -/
def denominator (parseDate : Option String → Option Int) (hasConcessions : Bool)
    (rows : List Row) (referenceNow windowDays : Int) : Rat :=
  (soldWindowCount parseDate hasConcessions rows referenceNow windowDays : Rat) / 3
    + (pendingCount parseDate hasConcessions rows : Rat)

/-- moi = (active_count / den) if den > 0 else np.nan. -/
def monthsOfInventory (parseDate : Option String → Option Int) (hasConcessions : Bool)
    (rows : List Row) (referenceNow windowDays : Int) : Option Rat :=
  let den := denominator parseDate hasConcessions rows referenceNow windowDays
  if 0 < den then some ((activeCount parseDate hasConcessions rows : Rat) / den) else none

/-- Series min / max with dropna already applied: the empty series yields
NaN for both ends, i.e. an undefined range. -/
def rangeOf (l : List Rat) : Option (Rat × Rat) :=
  match l with
  | [] => none
  | x :: xs => some (xs.foldl min x, xs.foldl max x)

/-- The _list_price values of the Active rows, after dropna. -/
def activePrices (parseDate : Option String → Option Int) (hasConcessions : Bool)
    (rows : List Row) : List Rat :=
  ((classifyAll parseDate hasConcessions rows).filter
    (fun c => decide (c.bucket = Bucket.Active))).filterMap Classified.listPriceNum

/-- The _list_price values of the Pending rows, after dropna. -/
def pendingPrices (parseDate : Option String → Option Int) (hasConcessions : Bool)
    (rows : List Row) : List Rat :=
  ((classifyAll parseDate hasConcessions rows).filter
    (fun c => decide (c.bucket = Bucket.Pending))).filterMap Classified.listPriceNum

/-- net_price = _close_price - _concessions for one row; NaN on either side
propagates to NaN (when the concessions column is absent the _concessions
entry is the literal 0.0, never NaN). -/
def netPrice (c : Classified) : Option Rat :=
  match c.closePriceNum, c.concessionsNum with
  | some a, some b => some (a - b)
  | _, _ => none

/-- sold_net_prices = net_price.loc[is_sold_window].dropna(). -/
def soldNetPrices (parseDate : Option String → Option Int) (hasConcessions : Bool)
    (rows : List Row) (referenceNow windowDays : Int) : List Rat :=
  ((classifyAll parseDate hasConcessions rows).filter
    (inSoldWindow referenceNow windowDays)).filterMap netPrice

/-- active list-price range: [active_prices.min(), active_prices.max()],
undefined when the series is empty. -/
def activeListPriceRange (parseDate : Option String → Option Int) (hasConcessions : Bool)
    (rows : List Row) : Option (Rat × Rat) :=
  rangeOf (activePrices parseDate hasConcessions rows)

/-- pending list-price range, as for the active one. -/
def pendingListPriceRange (parseDate : Option String → Option Int) (hasConcessions : Bool)
    (rows : List Row) : Option (Rat × Rat) :=
  rangeOf (pendingPrices parseDate hasConcessions rows)

/-- sold net-price range: [sold_net_prices.min(), sold_net_prices.max()],
undefined when the series is empty. -/
def soldNetPriceRange (parseDate : Option String → Option Int) (hasConcessions : Bool)
    (rows : List Row) (referenceNow windowDays : Int) : Option (Rat × Rat) :=
  rangeOf (soldNetPrices parseDate hasConcessions rows referenceNow windowDays)

/-- Spec-side comparison definition for the refinement claim about a
concessions-absent dataset: the plain close-price range over the sold
window, i.e. [min, max] of _close_price (after dropna) restricted to
is_sold_window. -/
def soldClosePriceRange (parseDate : Option String → Option Int) (hasConcessions : Bool)
    (rows : List Row) (referenceNow windowDays : Int) : Option (Rat × Rat) :=
  rangeOf (((classifyAll parseDate hasConcessions rows).filter
    (inSoldWindow referenceNow windowDays)).filterMap Classified.closePriceNum)

/-- The keyword rules of bucketCore with the fourth source conditional (the
exact-match "active" fallback, rule 5 of the spec) removed: used to state
that the fallback never determines the result. -/
def bucketCoreNoFallback (s : List Char) : Bucket :=
  if anyKey ACTIVE_KEYS s && !(anyKey [chars "under contract", chars "pending"] s) then
    Bucket.Active
  else if anyKey PENDING_KEYS s then
    Bucket.Pending
  else if anyKey SOLD_KEYS s then
    Bucket.Sold
  else
    Bucket.Other

/-- bucket_status with the exact-match "active" fallback removed. -/
def bucket_statusNoFallback (x : Option String) : Bucket :=
  match x with
  | none => Bucket.Unknown
  | some s => bucketCoreNoFallback (normStatus s)

/-- A defined [min, max] range has min ≤ max; an undefined range is fine. -/
def rangeLe : Option (Rat × Rat) → Prop
  | none => True
  | some p => p.1 ≤ p.2

/-- Date parser stub that parses nothing (every close date is NaT). -/
def pdNone : Option String → Option Int :=
  fun _ => none

/-- Date parser stub sending every present string to day 0. -/
def pdZero : Option String → Option Int :=
  fun x => match x with | none => none | some _ => some 0

/-- A closed row whose close price parses but whose concessions cell holds
the unparseable text n/a. -/
def rowBadConcessions : Row :=
  { mlsStatus := some "Closed", closeDate := none, listPrice := none,
    closePrice := some "100", sellerConcessions := some "n/a" }

/-- A closed row with a parseable close date, used to exercise a non-empty
sold window. -/
def rowSoldExample : Row :=
  { mlsStatus := some "Closed", closeDate := some "2025-01-01", listPrice := none,
    closePrice := some "100", sellerConcessions := none }

end Momentum

namespace Momentum

/-- Any-keyword test over the two-element negative list, from either
disjunct. -/
theorem anyKey_neg_of_contains {t : List Char}
    (h : containsSub (chars "pending") t = true ∨ containsSub (chars "under contract") t = true) :
    anyKey [chars "under contract", chars "pending"] t = true := by
  rcases h with h | h <;> simp [anyKey, List.any_cons, List.any_nil, h]

/-- C1, counterexample: the empty string is not sent to Unknown (pd.isna of
an empty string is False, so the classifier falls through the keyword rules
instead of taking the missing-input branch). -/
theorem c1_empty_not_unknown : bucket_status (some "") ≠ Bucket.Unknown := by
  decide

/-- C1 (amended): a missing status maps to Unknown, while the empty string
matches no keyword rule and maps to Other. -/
theorem c1_missing_unknown_empty_other :
    bucket_status none = Bucket.Unknown ∧ bucket_status (some "") = Bucket.Other := by
  exact ⟨rfl, by decide⟩

/-- C3: a record is in the sold window iff its bucket is Sold and its parsed
close date is defined and at least referenceNow − windowDays; moreover the
lower bound is closed (a Sold record dated exactly at the bound is in, one
day earlier is out), and an unparseable close date is excluded by the iff. -/
theorem c3_sold_window_iff (now days : Int) (c : Classified) :
    (inSoldWindow now days c = true ↔
      c.bucket = Bucket.Sold ∧ ∃ d, c.closeDateParsed = some d ∧ now - days ≤ d) ∧
    inSoldWindow now days
      { bucket := Bucket.Sold, closeDateParsed := some (now - days),
        listPriceNum := none, closePriceNum := none, concessionsNum := none } = true ∧
    inSoldWindow now days
      { bucket := Bucket.Sold, closeDateParsed := some (now - days - 1),
        listPriceNum := none, closePriceNum := none, concessionsNum := none } = false := by
  refine ⟨?_, ?_, ?_⟩
  · cases h : c.closeDateParsed with
    | none => simp [inSoldWindow, h]
    | some d => simp [inSoldWindow, h, Bool.and_eq_true, decide_eq_true_iff]
  · simp [inSoldWindow]
  · simp [inSoldWindow]

/-- C5: a status whose normalized text contains the keyword active together
with pending or under contract classifies as Pending (the negative check of
the active rule defers it to the pending rule), never as Active. -/
theorem c5_compound_status_pending (s : String)
    (_hact : containsSub (chars "active") (normStatus s) = true)
    (hpc : containsSub (chars "pending") (normStatus s) = true ∨
      containsSub (chars "under contract") (normStatus s) = true) :
    bucket_status (some s) = Bucket.Pending := by
  have hneg := anyKey_neg_of_contains hpc
  have hpend : anyKey PENDING_KEYS (normStatus s) = true := by
    rcases hpc with h | h <;> simp [anyKey, PENDING_KEYS, List.any_cons, List.any_nil, h]
  simp [bucket_status, bucketCore, hneg, hpend]

/-- C5, witness at the compound status Active/Under Contract. -/
theorem c5_witness :
    containsSub (chars "active") (normStatus "Active/Under Contract") = true ∧
    containsSub (chars "under contract") (normStatus "Active/Under Contract") = true ∧
    bucket_status (some "Active/Under Contract") = Bucket.Pending := by
  exact ⟨by decide, by decide,
    c5_compound_status_pending "Active/Under Contract" (by decide) (Or.inr (by decide))⟩

/-- The keyword-rule classifier agrees with its fallback-free variant on
every normalized status text: the final exact-match "active" test is
unreachable because such a text already satisfies the active rule. -/
theorem bucketCore_eq_noFallback (t : List Char) : bucketCore t = bucketCoreNoFallback t := by
  unfold bucketCore bucketCoreNoFallback
  split_ifs with h1 h2 h3 h4 <;> try rfl
  subst h4
  exact absurd
    (by decide :
      (anyKey ACTIVE_KEYS (chars "active") &&
        !(anyKey [chars "under contract", chars "pending"] (chars "active"))) = true)
    (by simpa using h1)

/-- C9: removing the exact-match "active" fallback rule never changes the
classification of any input. -/
theorem c9_fallback_never_fires (x : Option String) :
    bucket_status x = bucket_statusNoFallback x := by
  cases x with
  | none => rfl
  | some s => exact bucketCore_eq_noFallback (normStatus s)

/-- C10: a status whose normalized text contains a/i but neither pending nor
under contract classifies as Active, because a/i contains the active keyword
a/ and the negative check of the active rule passes. -/
theorem c10_ai_without_pending_active (s : String)
    (h : containsSub (chars "a/i") (normStatus s) = true)
    (hp : containsSub (chars "pending") (normStatus s) = false)
    (hu : containsSub (chars "under contract") (normStatus s) = false) :
    bucket_status (some s) = Bucket.Active := by
  have ha : containsSub (chars "a/") (normStatus s) = true := by
    have h1 : chars "a/" <:+: chars "a/i" := by decide
    have h2 : chars "a/i" <:+: normStatus s := of_decide_eq_true h
    exact decide_eq_true (h1.trans h2)
  have hactive : anyKey ACTIVE_KEYS (normStatus s) = true := by
    simp [anyKey, ACTIVE_KEYS, List.any_cons, List.any_nil, ha]
  have hneg : anyKey [chars "under contract", chars "pending"] (normStatus s) = false := by
    simp [anyKey, List.any_cons, List.any_nil, hp, hu]
  simp [bucket_status, bucketCore, hactive, hneg]

/-- C10, witness at the status A/I. -/
theorem c10_witness :
    containsSub (chars "a/i") (normStatus "A/I") = true ∧
    containsSub (chars "pending") (normStatus "A/I") = false ∧
    containsSub (chars "under contract") (normStatus "A/I") = false ∧
    bucket_status (some "A/I") = Bucket.Active := by
  exact ⟨by decide, by decide, by decide,
    c10_ai_without_pending_active "A/I" (by decide) (by decide) (by decide)⟩

/-- C2, counterexample: a record with a parseable close price but an
unparseable concessions cell, in a dataset whose concessions column is
present, has Missing netPrice even though closePriceNum is defined. -/
theorem c2_counterexample :
    netPrice (classifyRow pdNone true rowBadConcessions) = none ∧
    (classifyRow pdNone true rowBadConcessions).closePriceNum ≠ none := by
  decide

/-- C2 (amended): when the concessions column is absent, netPrice is Missing
iff closePriceNum is Missing; when it is present, netPrice is Missing iff
closePriceNum is Missing or the per-record concessionsNum is Missing. -/
theorem c2_netPrice_missing_iff (pd : Option String → Option Int) (r : Row) :
    (netPrice (classifyRow pd false r) = none ↔ to_num r.closePrice = none) ∧
    (netPrice (classifyRow pd true r) = none ↔
      (to_num r.closePrice = none ∨ to_num r.sellerConcessions = none)) := by
  constructor
  · cases h : to_num r.closePrice <;> simp [netPrice, classifyRow, h]
  · cases h : to_num r.closePrice <;> cases h2 : to_num r.sellerConcessions <;>
      simp [netPrice, classifyRow, h, h2]

/-- Positivity of the MOI denominator over the natural counts. -/
theorem div3_add_pos_iff (sw pc : Nat) :
    0 < (sw : Rat) / 3 + (pc : Rat) ↔ ¬(sw = 0 ∧ pc = 0) := by
  constructor
  · intro h hz
    rw [hz.1, hz.2] at h
    norm_num at h
  · intro h
    rcases Nat.eq_zero_or_pos sw with h1 | h1
    · rcases Nat.eq_zero_or_pos pc with h2 | h2
      · exact absurd ⟨h1, h2⟩ h
      · have hp : (0 : Rat) < (pc : Rat) := by exact_mod_cast h2
        have hs : (0 : Rat) ≤ (sw : Rat) / 3 := by positivity
        linarith
    · have hs : (0 : Rat) < (sw : Rat) := by exact_mod_cast h1
      have hp : (0 : Rat) ≤ (pc : Rat) := by positivity
      have h3 : (0 : Rat) < (sw : Rat) / 3 := by linarith
      linarith

/-- C4: monthsOfInventory is undefined exactly when both the windowed sold
count and the pending count are zero (the denominator vanishes), and
otherwise equals activeCount divided by the denominator. -/
theorem c4_moi_undefined_iff (pd : Option String → Option Int) (hc : Bool)
    (rows : List Row) (now days : Int) :
    (monthsOfInventory pd hc rows now days = none ↔
      soldWindowCount pd hc rows now days = 0 ∧ pendingCount pd hc rows = 0) ∧
    (¬(soldWindowCount pd hc rows now days = 0 ∧ pendingCount pd hc rows = 0) →
      monthsOfInventory pd hc rows now days =
        some ((activeCount pd hc rows : Rat) / denominator pd hc rows now days)) := by
  have hden : denominator pd hc rows now days =
      (soldWindowCount pd hc rows now days : Rat) / 3 + (pendingCount pd hc rows : Rat) := rfl
  have hpos : 0 < denominator pd hc rows now days ↔
      ¬(soldWindowCount pd hc rows now days = 0 ∧ pendingCount pd hc rows = 0) := by
    rw [hden]
    exact div3_add_pos_iff _ _
  by_cases h : soldWindowCount pd hc rows now days = 0 ∧ pendingCount pd hc rows = 0
  · have hnd : ¬0 < denominator pd hc rows now days := fun hlt => (hpos.mp hlt) h
    refine ⟨?_, fun hc2 => absurd h hc2⟩
    simp [monthsOfInventory, hnd, h]
  · have hd : 0 < denominator pd hc rows now days := hpos.mpr h
    refine ⟨?_, fun _ => ?_⟩
    · simp [monthsOfInventory, hd, h]
    · simp [monthsOfInventory, hd]

/-- C4, witness: a dataset with one in-window closed row has a defined MOI
equal to activeCount over the denominator. -/
theorem c4_witness :
    monthsOfInventory pdZero false [rowSoldExample] 0 0 =
      some ((activeCount pdZero false [rowSoldExample] : Rat) /
        denominator pdZero false [rowSoldExample] 0 0) := by
  exact (c4_moi_undefined_iff pdZero false [rowSoldExample] 0 0).2 (by decide)

/-- C6: to_num strips dollar signs, commas and whitespace then parses a
decimal; the three spec examples evaluate as stated, and unparseable
residues degrade to Missing (none) rather than raising. -/
theorem c6_to_num_eval :
    to_num (some "$1,234.50") = some (1234.5 : Rat) ∧
    to_num (some "") = none ∧
    to_num (some "n/a") = none := by
  refine ⟨?_, rfl, rfl⟩
  rw [show to_num (some "$1,234.50")
      = some ((1 : Rat) * (((1234 : Nat) : Rat) + ((50 : Nat) : Rat) / (10 : Rat) ^ 2)) from rfl]
  norm_num

/-- Folding min over a list only lowers the initial value. -/
theorem foldl_min_le_init (l : List Rat) (x : Rat) : l.foldl min x ≤ x := by
  induction l generalizing x with
  | nil => simp
  | cons a t ih =>
    simp only [List.foldl_cons]
    exact le_trans (ih (min x a)) (min_le_left x a)

/-- Folding max over a list only raises the initial value. -/
theorem le_foldl_max_init (l : List Rat) (x : Rat) : x ≤ l.foldl max x := by
  induction l generalizing x with
  | nil => simp
  | cons a t ih =>
    simp only [List.foldl_cons]
    exact le_trans (le_max_left x a) (ih (max x a))

/-- Every range produced by rangeOf has min ≤ max when defined. -/
theorem rangeLe_rangeOf (l : List Rat) : rangeLe (rangeOf l) := by
  cases l with
  | nil => trivial
  | cons x xs =>
    show xs.foldl min x ≤ xs.foldl max x
    exact le_trans (foldl_min_le_init xs x) (le_foldl_max_init xs x)

/-- Counting over the classified rows is bounded by the dataset size. -/
theorem countP_classified_le (pd : Option String → Option Int) (hc : Bool)
    (rows : List Row) (p : Classified → Bool) :
    (classifyAll pd hc rows).countP p ≤ rows.length := by
  calc (classifyAll pd hc rows).countP p ≤ (classifyAll pd hc rows).length :=
        List.countP_le_length p
    _ = rows.length := by simp [classifyAll]

/-- C7: every count of the statistics bundle is at most the record count
(and non-negative, being a natural number), and each of the three price
ranges has min ≤ max whenever it is defined. -/
theorem c7_bundle_invariants (pd : Option String → Option Int) (hc : Bool)
    (rows : List Row) (now days : Int) :
    activeCount pd hc rows ≤ rows.length ∧
    pendingCount pd hc rows ≤ rows.length ∧
    soldWindowCount pd hc rows now days ≤ rows.length ∧
    rangeLe (activeListPriceRange pd hc rows) ∧
    rangeLe (pendingListPriceRange pd hc rows) ∧
    rangeLe (soldNetPriceRange pd hc rows now days) :=
  ⟨countP_classified_le pd hc rows _, countP_classified_le pd hc rows _,
    countP_classified_le pd hc rows _, rangeLe_rangeOf _, rangeLe_rangeOf _, rangeLe_rangeOf _⟩

/-- When every concessions entry is the literal zero, netPrice and the plain
close price agree after dropna. -/
theorem filterMap_netPrice_of_zero (l : List Classified)
    (h : ∀ c ∈ l, c.concessionsNum = some 0) :
    l.filterMap netPrice = l.filterMap Classified.closePriceNum := by
  induction l with
  | nil => rfl
  | cons a t ih =>
    have ha := h a (List.mem_cons_self a t)
    have ht := ih (fun c hcmem => h c (List.mem_cons_of_mem a hcmem))
    cases hcp : a.closePriceNum with
    | none => simp [List.filterMap_cons, netPrice, ha, hcp, ht]
    | some v => simp [List.filterMap_cons, netPrice, ha, hcp, ht]

/-- C8: on a dataset without a concessions column the sold net-price range
coincides with the plain close-price range over the sold window. -/
theorem c8_concessions_absent_range (pd : Option String → Option Int)
    (rows : List Row) (now days : Int) :
    soldNetPriceRange pd false rows now days = soldClosePriceRange pd false rows now days := by
  unfold soldNetPriceRange soldClosePriceRange soldNetPrices
  congr 1
  apply filterMap_netPrice_of_zero
  intro c hcmem
  have hm := List.mem_of_mem_filter hcmem
  simp only [classifyAll, List.mem_map] at hm
  rcases hm with ⟨r, _, rfl⟩
  rfl

end Momentum
